import Mathlib

/-!
Shallow embedding of `src/src/any_agent/frameworks/llama_index.py`
(the `LlamaIndexAgent` adapter class), together with theorems settling
the specification claims about it.

The adapter translates a generic `AgentConfig` into backend-specific
model/agent construction (`_get_model`, `_load_agent`) and extracts the
first textual content block from a backend run result (`_run_async`).
External collaborators (the tool loader and the backend agent run) are
modelled as explicit parameters; Python `self` mutation is modelled by
explicit state passing.
-/

set_option autoImplicit false

namespace AnyAgent

/-- Opaque tool specification (the adapter never inspects it, only
forwards the list to the tool loader). -/
abbrev ToolSpec := String

/-- Opaque resolved tool (`imported_tools` element); the adapter only
forwards the resolved set. -/
abbrev Tool := String

/-- The auxiliary second component returned by the tool loader, which
`_load_agent` discards (`imported_tools, _ = await self._load_tools(...)`). -/
abbrev ToolAux := List String

/-- Generic, backend-agnostic agent configuration.
Modelled from the spec: the `AgentConfig` class lives in
`any_agent.config`, which is not part of this snippet; spec section 3
lists its fields (name, description, instructions, model identifier,
API key/base, model extra-arguments, tool list, agent extra-arguments,
optional concrete model/agent class overrides).  Optional string fields
are `Option String`; the class overrides are identified by class name;
keyword-argument mappings are association lists. -/
structure AgentConfig where
  name : String
  description : Option String
  instructions : Option String
  model_id : String
  api_key : Option String
  api_base : Option String
  model_args : Option (List (String × String))
  tools : List ToolSpec
  agent_args : Option (List (String × String))
  model_type : Option String
  agent_type : Option String
deriving Repr, DecidableEq

/-- Python truthiness-based `or` on an optional string: `None` and the
empty string are falsy, so `x or d` yields `d` for both.  This embeds
the expression `agent_config.description or "The main agent"`. -/
def pyStrOr (x : Option String) (d : String) : String :=
  match x with
  | none => d
  | some s => if s = "" then d else s

/-- Python truthiness-based `or {}` on an optional keyword mapping:
`None` and the empty mapping are falsy and both yield the empty
mapping, so the result is `getD []`. -/
def pyArgsOr (x : Option (List (String × String))) : List (String × String) :=
  match x with
  | none => []
  | some l => l

/-- The default model class of the adapter module
(`DEFAULT_MODEL_TYPE = LiteLLM`), identified by name. -/
def DEFAULT_MODEL_TYPE : String := "LiteLLM"

/-- The default agent class of the adapter module
(`DEFAULT_AGENT_TYPE = FunctionAgent`), identified by name. -/
def DEFAULT_AGENT_TYPE : String := "FunctionAgent"

/-- The backend model handle built by `_get_model`: the chosen concrete
model class plus the constructor's named fields. -/
structure ModelHandle where
  cls : String
  model : String
  api_key : Option String
  api_base : Option String
  additional_kwargs : List (String × String)
deriving Repr, DecidableEq

/-- The backend agent object constructed by `_load_agent`: the chosen
concrete agent class plus all constructor arguments. -/
structure LoadedAgent where
  cls : String
  name : String
  tools : List Tool
  description : String
  llm : ModelHandle
  system_prompt : Option String
  agent_args : List (String × String)
deriving Repr, DecidableEq

/-- One content block of a backend response.  The source performs a
duck-typed `hasattr(block, "text")` probe, so a block either carries a
textual payload or it does not (e.g. an image block). -/
inductive Block where
  | textBlock (text : String)
  | otherBlock (kind : String)
deriving Repr, DecidableEq

/-- The `.text` attribute of a block, when present; `hasattr(b, "text")`
is `(textAttr b).isSome`. -/
def Block.textAttr : Block → Option String
  | .textBlock t => some t
  | .otherBlock _ => none

/-- A printed form of one block, used for the diagnostic message. -/
def Block.reprStr : Block → String
  | .textBlock t => "TextBlock(text=" ++ t ++ ")"
  | .otherBlock k => k ++ "()"

/-- The `result.response` object: an ordered sequence of content blocks. -/
structure Response where
  blocks : List Block
deriving Repr, DecidableEq

/-- The string interpolation of the response object, as used in the
f-string `f"Agent did not return a valid response: {result.response}"`. -/
def Response.reprStr (r : Response) : String :=
  "ChatMessage(blocks=[" ++ String.intercalate ", " (r.blocks.map Block.reprStr) ++ "])"

/-- The backend run result (`AgentOutput`): the adapter only reads its
`.response` field. -/
structure AgentOutput where
  response : Response
deriving Repr, DecidableEq

/-- The error kinds this adapter layer itself raises.  In the source all
three are `ImportError`/`ValueError` values distinguished by message;
the spec names them `IntegrationMissing`, `NotLoaded` and
`InvalidResponseShape`. -/
inductive AdapterError where
  | integrationMissing (msg : String)
  | notLoaded (msg : String)
  | invalidResponseShape (msg : String)
deriving Repr, DecidableEq

/-- The install instruction raised when the optional backend is missing
(`"You need to ..." ImportError message in `_load_agent`). -/
def integrationMissingMsg : String :=
  "You need to `pip install \x27any-agent[llama_index]\x27` to use this agent"

/-- The message raised when `run` is called before a successful load. -/
def notLoadedMsg : String :=
  "Agent not loaded. Call load_agent() first."

/-- The diagnostic prefix of the invalid-response message. -/
def invalidResponsePrefix : String :=
  "Agent did not return a valid response: "

/-- Mutable state of one `LlamaIndexAgent` instance: the stored config,
the owned agent reference `self._agent` and the stored tool set
`self._tools`. -/
structure LlamaIndexAgentState where
  config : AgentConfig
  agent : Option LoadedAgent
  tools : List Tool
deriving Repr, DecidableEq

namespace LlamaIndexAgent

/-- `LlamaIndexAgent.__init__`: stores the config and sets
`self._agent = None` (the `Unloaded` state). -/
def init (config : AgentConfig) : LlamaIndexAgentState :=
  { config := config, agent := none, tools := [] }

/-- `LlamaIndexAgent._get_model`: select the concrete model class
(config override, else `DEFAULT_MODEL_TYPE`) and construct it with the
model identifier, API key, API base and `model_args or {}`. -/
def getModel (agent_config : AgentConfig) : ModelHandle :=
  let model_type := agent_config.model_type.getD DEFAULT_MODEL_TYPE
  { cls := model_type
    model := agent_config.model_id
    api_key := agent_config.api_key
    api_base := agent_config.api_base
    additional_kwargs := pyArgsOr agent_config.model_args }

/-- The backend agent constructed by `_load_agent` from a config and the
resolved tool set: agent class `config.agent_type or DEFAULT_AGENT_TYPE`
applied to name, tools, `description or "The main agent"`, the model
handle from `_get_model`, the instructions as system prompt, and
`agent_args or {}` splatted as extra keyword arguments. -/
def constructedAgent (config : AgentConfig) (imported_tools : List Tool) : LoadedAgent :=
  let agent_type := config.agent_type.getD DEFAULT_AGENT_TYPE
  { cls := agent_type
    name := config.name
    tools := imported_tools
    description := pyStrOr config.description "The main agent"
    llm := getModel config
    system_prompt := config.instructions
    agent_args := pyArgsOr config.agent_args }

/-- `LlamaIndexAgent._load_agent`.  `available` is the module-level
`llama_index_available` flag; `toolRes` is the outcome of awaiting
`self._load_tools(self.config.tools)`, whose errors (type `ε`) propagate
uncaught as `Sum.inr`.  On success the resolved tools are stored in
`self._tools` and the constructed backend agent in `self._agent`. -/
def loadAgent {ε : Type} (available : Bool) (st : LlamaIndexAgentState)
    (toolRes : Except ε (List Tool × ToolAux)) :
    Except (AdapterError ⊕ ε) LlamaIndexAgentState :=
  if !available then
    .error (.inl (.integrationMissing integrationMissingMsg))
  else
    match toolRes with
    | .error e => .error (.inr e)
    | .ok (imported_tools, _) =>
        .ok { st with
              tools := imported_tools
              agent := some (constructedAgent st.config imported_tools) }

/-- `LlamaIndexAgent._run_async`.  `backend` is the loaded backend
agent's own asynchronous `run` (an external collaborator), taking the
prompt and the forwarded keyword options.  Returns the resulting state
(the method performs no `self` assignment) together with the extracted
text or the raised error. -/
def runAsync (st : LlamaIndexAgentState) (prompt : String)
    (kwargs : List (String × String))
    (backend : LoadedAgent → String → List (String × String) → AgentOutput) :
    LlamaIndexAgentState × Except AdapterError String :=
  match st.agent with
  | none => (st, .error (.notLoaded notLoadedMsg))
  | some ag =>
      match (backend ag prompt kwargs).response.blocks with
      | [] =>
          (st, .error (.invalidResponseShape
            (invalidResponsePrefix ++ (backend ag prompt kwargs).response.reprStr)))
      | b :: _ =>
          match b.textAttr with
          | none =>
              (st, .error (.invalidResponseShape
                (invalidResponsePrefix ++ (backend ag prompt kwargs).response.reprStr)))
          | some t => (st, .ok t)

end LlamaIndexAgent

end AnyAgent

namespace AnyAgent

/-- A minimal concrete config used to instantiate theorems with
hypotheses at explicit inputs. -/
def sampleConfig : AgentConfig :=
  { name := "main", description := none, instructions := none,
    model_id := "model-x", api_key := none, api_base := none,
    model_args := none, tools := [], agent_args := none,
    model_type := none, agent_type := none }

/-- The same config with a different tool list (a model-irrelevant field). -/
def sampleConfigWithTools : AgentConfig :=
  { sampleConfig with tools := ["search"] }

/-- A concrete backend agent as `_load_agent` would construct it. -/
def sampleAgent : LoadedAgent :=
  LlamaIndexAgent.constructedAgent sampleConfig []

/-- A concrete adapter state in the `Loaded` state. -/
def sampleLoadedState : LlamaIndexAgentState :=
  { config := sampleConfig, agent := some sampleAgent, tools := [] }

/-- Helper: `_run_async` performs no assignment to `self`, so the state
component of its result is always the input state, on every control
path (not loaded, empty blocks, non-text first block, success). -/
theorem runAsync_fst (st : LlamaIndexAgentState) (prompt : String)
    (kwargs : List (String × String))
    (backend : LoadedAgent → String → List (String × String) → AgentOutput) :
    (LlamaIndexAgent.runAsync st prompt kwargs backend).1 = st := by
  cases hag : st.agent with
  | none => simp [LlamaIndexAgent.runAsync, hag]
  | some ag =>
      cases hb : (backend ag prompt kwargs).response.blocks with
      | nil => simp [LlamaIndexAgent.runAsync, hag, hb]
      | cons b bs =>
          cases htb : b.textAttr with
          | none => simp [LlamaIndexAgent.runAsync, hag, hb, htb]
          | some t => simp [LlamaIndexAgent.runAsync, hag, hb, htb]

/-- C1: for every loaded adapter and every backend run result whose
content-block sequence is non-empty with a textual first block, `run`
returns exactly that first block's string value. -/
theorem run_returns_first_text (st : LlamaIndexAgentState) (ag : LoadedAgent)
    (prompt : String) (kwargs : List (String × String))
    (backend : LoadedAgent → String → List (String × String) → AgentOutput)
    (t : String) (rest : List Block)
    (hag : st.agent = some ag)
    (hblocks : (backend ag prompt kwargs).response.blocks = Block.textBlock t :: rest) :
    LlamaIndexAgent.runAsync st prompt kwargs backend = (st, .ok t) := by
  simp [LlamaIndexAgent.runAsync, hag, hblocks, Block.textAttr]

/-- C1 witness: with blocks `[{text: "hello"}]`, `run` returns `"hello"`. -/
theorem run_returns_first_text_witness :
    LlamaIndexAgent.runAsync sampleLoadedState "hi" []
        (fun _ _ _ => { response := { blocks := [Block.textBlock "hello"] } }) =
      (sampleLoadedState, .ok "hello") :=
  run_returns_first_text sampleLoadedState sampleAgent "hi" []
    (fun _ _ _ => { response := { blocks := [Block.textBlock "hello"] } })
    "hello" [] rfl rfl

/-- C2: for every loaded adapter, if the backend result's content-block
sequence is empty or its first block lacks a textual payload, `run`
fails with `InvalidResponseShape` and the error message is the
diagnostic prefix followed by the raw result response's representation;
the result is a plain error, never a partial success. -/
theorem run_invalid_response_shape (st : LlamaIndexAgentState) (ag : LoadedAgent)
    (prompt : String) (kwargs : List (String × String))
    (backend : LoadedAgent → String → List (String × String) → AgentOutput)
    (hag : st.agent = some ag)
    (hbad : (backend ag prompt kwargs).response.blocks = [] ∨
      ∃ b rest, (backend ag prompt kwargs).response.blocks = b :: rest ∧
        b.textAttr = none) :
    LlamaIndexAgent.runAsync st prompt kwargs backend =
      (st, .error (.invalidResponseShape
        (invalidResponsePrefix ++ (backend ag prompt kwargs).response.reprStr))) := by
  rcases hbad with hb | ⟨b, rest, hb, htb⟩
  · simp [LlamaIndexAgent.runAsync, hag, hb]
  · simp [LlamaIndexAgent.runAsync, hag, hb, htb]

/-- C2 witness: an empty content-block sequence yields
`InvalidResponseShape` with the raw response representation. -/
theorem run_invalid_response_shape_witness :
    LlamaIndexAgent.runAsync sampleLoadedState "q" []
        (fun _ _ _ => { response := { blocks := [] } }) =
      (sampleLoadedState, .error (.invalidResponseShape
        (invalidResponsePrefix ++ Response.reprStr { blocks := [] }))) :=
  run_invalid_response_shape sampleLoadedState sampleAgent "q" []
    (fun _ _ _ => { response := { blocks := [] } }) rfl (Or.inl rfl)

/-- C3: for every adapter state that is not loaded and every prompt
(including the empty string), `run` fails with `NotLoaded` carrying
exactly the message "Agent not loaded. Call load_agent() first." -/
theorem run_not_loaded (st : LlamaIndexAgentState) (prompt : String)
    (kwargs : List (String × String))
    (backend : LoadedAgent → String → List (String × String) → AgentOutput)
    (h : st.agent = none) :
    LlamaIndexAgent.runAsync st prompt kwargs backend =
      (st, .error (.notLoaded "Agent not loaded. Call load_agent() first.")) := by
  simp [LlamaIndexAgent.runAsync, h, notLoadedMsg]

/-- C3 witness: a freshly initialized adapter, run on the empty prompt,
fails with `NotLoaded` and the exact message. -/
theorem run_not_loaded_witness :
    LlamaIndexAgent.runAsync (LlamaIndexAgent.init sampleConfig) "" []
        (fun _ _ _ => { response := { blocks := [] } }) =
      (LlamaIndexAgent.init sampleConfig,
        .error (.notLoaded "Agent not loaded. Call load_agent() first.")) :=
  run_not_loaded (LlamaIndexAgent.init sampleConfig) "" []
    (fun _ _ _ => { response := { blocks := [] } }) rfl

/-- C4: for every config (state) and every outcome of the tool loader —
including a failing one, so the availability check precedes tool
resolution and agent construction — `load` with the backend unavailable
fails with `IntegrationMissing` carrying the install instruction. -/
theorem load_unavailable {ε : Type} (st : LlamaIndexAgentState)
    (toolRes : Except ε (List Tool × ToolAux)) :
    LlamaIndexAgent.loadAgent false st toolRes =
      .error (.inl (.integrationMissing integrationMissingMsg)) := rfl

/-- C5: the model handle's model id, key, base and extra-args depend
only on the config's model id, API key, API base and model
extra-arguments; and the extra-args default to the empty mapping when
unset. -/
theorem getModel_field_mapping (c1 c2 : AgentConfig)
    (hid : c1.model_id = c2.model_id)
    (hkey : c1.api_key = c2.api_key)
    (hbase : c1.api_base = c2.api_base)
    (hargs : c1.model_args = c2.model_args) :
    (LlamaIndexAgent.getModel c1).model = (LlamaIndexAgent.getModel c2).model ∧
    (LlamaIndexAgent.getModel c1).api_key = (LlamaIndexAgent.getModel c2).api_key ∧
    (LlamaIndexAgent.getModel c1).api_base = (LlamaIndexAgent.getModel c2).api_base ∧
    (LlamaIndexAgent.getModel c1).additional_kwargs
      = (LlamaIndexAgent.getModel c2).additional_kwargs ∧
    ∀ c : AgentConfig, c.model_args = none →
      (LlamaIndexAgent.getModel c).additional_kwargs = [] := by
  refine ⟨?_, ?_, ?_, ?_, ?_⟩
  · simp [LlamaIndexAgent.getModel, hid]
  · simp [LlamaIndexAgent.getModel, hkey]
  · simp [LlamaIndexAgent.getModel, hbase]
  · simp [LlamaIndexAgent.getModel, hargs]
  · intro c hc; simp [LlamaIndexAgent.getModel, pyArgsOr, hc]

/-- C5 witness: two concrete configs differing only in the tool list
produce model handles with identical model id, key, base and
extra-args. -/
theorem getModel_field_mapping_witness :
    (LlamaIndexAgent.getModel sampleConfig).model
        = (LlamaIndexAgent.getModel sampleConfigWithTools).model ∧
    (LlamaIndexAgent.getModel sampleConfig).api_key
        = (LlamaIndexAgent.getModel sampleConfigWithTools).api_key ∧
    (LlamaIndexAgent.getModel sampleConfig).api_base
        = (LlamaIndexAgent.getModel sampleConfigWithTools).api_base ∧
    (LlamaIndexAgent.getModel sampleConfig).additional_kwargs
        = (LlamaIndexAgent.getModel sampleConfigWithTools).additional_kwargs ∧
    ∀ c : AgentConfig, c.model_args = none →
      (LlamaIndexAgent.getModel c).additional_kwargs = [] :=
  getModel_field_mapping sampleConfig sampleConfigWithTools rfl rfl rfl rfl

/-- C6: a successful `load` constructs the backend agent from the
config-supplied agent class (else the default), the config's name, the
resolved tools, the description (default "The main agent"), the model
handle from the model factory, the instructions as system prompt and
the agent extra-arguments (default empty), and stores it (and the
resolved tools) as the adapter's owned state. -/
theorem load_constructs_and_stores {ε : Type} (st : LlamaIndexAgentState)
    (imported_tools : List Tool) (aux : ToolAux) :
    ∃ st' : LlamaIndexAgentState,
      @LlamaIndexAgent.loadAgent ε true st (.ok (imported_tools, aux)) = .ok st' ∧
      st'.agent = some
        { cls := st.config.agent_type.getD DEFAULT_AGENT_TYPE
          name := st.config.name
          tools := imported_tools
          description := pyStrOr st.config.description "The main agent"
          llm := LlamaIndexAgent.getModel st.config
          system_prompt := st.config.instructions
          agent_args := pyArgsOr st.config.agent_args } ∧
      st'.tools = imported_tools ∧
      st'.config = st.config :=
  ⟨_, rfl, rfl, rfl, rfl⟩

/-- C7: the adapter's state machine: a fresh adapter is `Unloaded`
(no agent stored), `run` never stores an agent (so `Loaded` is reached
only through a successful `load`), and a second `load` on an
already-loaded state simply replaces the stored agent with the newly
constructed one, whatever was stored before. -/
theorem adapter_state_machine (config : AgentConfig) :
    (LlamaIndexAgent.init config).agent = none ∧
    (∀ (st : LlamaIndexAgentState) (prompt : String)
       (kwargs : List (String × String))
       (backend : LoadedAgent → String → List (String × String) → AgentOutput),
       (LlamaIndexAgent.runAsync st prompt kwargs backend).1.agent = st.agent) ∧
    (∀ (st : LlamaIndexAgentState) (imported_tools : List Tool) (aux : ToolAux),
       @LlamaIndexAgent.loadAgent Unit true st (.ok (imported_tools, aux)) =
         .ok { st with
               tools := imported_tools
               agent := some (LlamaIndexAgent.constructedAgent st.config imported_tools) }) := by
  refine ⟨rfl, ?_, ?_⟩
  · intro st prompt kwargs backend
    rw [runAsync_fst]
  · intro st imported_tools aux
    rfl

/-- C8: an error raised by the tool-loading collaborator propagates out
of `load` exactly as raised, not wrapped in any adapter-defined error
kind. -/
theorem load_propagates_tool_error {ε : Type} (st : LlamaIndexAgentState) (e : ε) :
    LlamaIndexAgent.loadAgent true st (.error e) = .error (.inr e) := rfl

/-- C9: `run` never writes the owned agent reference or the stored tool
set: on every invocation, succeeding or failing, the stored agent and
tools after the call equal those before it. -/
theorem run_preserves_stored_state (st : LlamaIndexAgentState) (prompt : String)
    (kwargs : List (String × String))
    (backend : LoadedAgent → String → List (String × String) → AgentOutput) :
    (LlamaIndexAgent.runAsync st prompt kwargs backend).1.agent = st.agent ∧
    (LlamaIndexAgent.runAsync st prompt kwargs backend).1.tools = st.tools := by
  rw [runAsync_fst]
  exact ⟨rfl, rfl⟩

/-- C10: defaulting is by falsiness, not absence: an explicitly empty
description, model-args or agent-args is treated exactly as if unset
(in particular an empty-string description becomes "The main agent"),
and an unset model or agent class yields the documented default class.
(Class overrides, being classes, have no falsy value other than the
unset one.) -/
theorem falsy_defaulting (config : AgentConfig) (imported_tools : List Tool) :
    LlamaIndexAgent.constructedAgent
        { config with description := some "", model_args := some [],
                      agent_args := some [] } imported_tools
      = LlamaIndexAgent.constructedAgent
        { config with description := none, model_args := none,
                      agent_args := none } imported_tools ∧
    (LlamaIndexAgent.constructedAgent { config with description := some "" }
        imported_tools).description = "The main agent" ∧
    LlamaIndexAgent.getModel { config with model_args := some [] }
      = LlamaIndexAgent.getModel { config with model_args := none } ∧
    (LlamaIndexAgent.getModel { config with model_type := none }).cls
      = DEFAULT_MODEL_TYPE ∧
    (LlamaIndexAgent.constructedAgent { config with agent_type := none }
        imported_tools).cls = DEFAULT_AGENT_TYPE := by
  refine ⟨?_, ?_, ?_, rfl, rfl⟩
  · simp [LlamaIndexAgent.constructedAgent, LlamaIndexAgent.getModel, pyStrOr, pyArgsOr]
  · simp [LlamaIndexAgent.constructedAgent, pyStrOr]
  · simp [LlamaIndexAgent.getModel, pyArgsOr]

end AnyAgent
